import Mathlib

/-!
# Verification of the supply-chain cost model (`modelappv6.py`)

Shallow embedding of the cost-calculation engine of the repository:
demand aggregation, safety stock, rental cost, inventory financing,
shipping cost and labor cost, as defined in `src/modelappv6.py`.

Numeric conventions: Python ints entered with non-negative lower bounds are
modelled as `ℕ`; Python floats as `ℝ`.  Python float division raising
`ZeroDivisionError` is modelled with `Except String` where the divisor can
be zero on a reachable path; divisions whose divisor is a nonzero literal
are plain real division.  The 12-month forecast list (validated to have
exactly 12 entries) is modelled as `Fin 12 → ℕ`.
-/

noncomputable section

namespace SupplyModel

open scoped BigOperators

/-- A market area (`market_area_data[area]`): average order size, average
daily demand, standard deviation of daily demand, and the 12-month forecast
series. -/
structure MarketArea where
  avg_order_size : ℕ
  avg_daily_demand : ℕ
  std_daily_demand : ℝ
  forecast_demand : Fin 12 → ℕ

/-- The market table `market_area_data`: association of market code to data,
modelling the Python dict (unique keys, membership test `area in
market_area_data`, lookup `market_area_data[area]`). -/
abbrev MarketTable : Type := List (String × MarketArea)

/-- Warehouse type (`wh["type"]`). -/
inductive WhType where
  | MAIN
  | FRONT
deriving DecidableEq

/-- Rent pricing method (`wh["rent_pricing_method"]`): the source strings
are "Fixed Rent Price" and "Square Foot Rent Price". -/
inductive RentMethod where
  | FixedRent
  | SqFtRent
deriving DecidableEq

/-- Layout type (`layout_type`): the source strings are
"Central and Fronts" and "Main Regionals". -/
inductive Layout where
  | CentralFronts
  | MainRegionals
deriving DecidableEq

/-- A warehouse record (`wh_dict`).  Type-conditional keys of the Python
dict: `lt_shipping` is read with `.get("lt_shipping", 0)` so it is an
`Option`; the remaining conditional fields (`shipping_cost_40hc` for MAIN,
`front_shipping_cost_40/53` for FRONT) are only ever read on warehouses of
the matching type, so they are plain fields. -/
structure Warehouse where
  location : String
  type : WhType
  served_markets : List String
  rent_pricing_method : RentMethod
  rent_price : ℝ
  avg_employee_salary : ℕ
  num_employees : ℕ
  lt_shipping : Option ℕ
  shipping_cost_40hc : ℕ
  front_shipping_cost_40 : ℕ
  front_shipping_cost_53 : ℕ

/-- The global configuration collected at the top of the script. -/
structure Config where
  interest_rate : ℝ
  service_level : ℝ
  layout_type : Layout
  shipping_cost_rate : ℝ
  unit_cost : ℕ
  sq_ft_per_unit : ℝ
  overhead_factor_main : ℝ
  overhead_factor_front : ℝ
  container_capacity_40 : ℕ
  additional_market_distances : List (String × ℝ)
  shipping_cost_per_order_unit : ℝ

/-- Modelled from the spec: `scipy.stats.norm.ppf`, the inverse standard
normal cumulative distribution function (the quantile function), whose
source is not part of this repository.  Following the spec ("z-score =
inverse standard normal CDF of service level") it is the generalized
inverse `sInf {x | p ≤ Φ(x)}` of the CDF `Φ` of the standard Gaussian
measure. -/
def stdNormalCDF (x : ℝ) : ℝ :=
  ProbabilityTheory.cdf (ProbabilityTheory.gaussianReal 0 1) x

/-- Modelled from the spec: the standard normal quantile function. -/
def normPPF (p : ℝ) : ℝ :=
  sInf {x : ℝ | p ≤ stdNormalCDF x}

/-- `Z_value = norm.ppf(service_level)` (line 62 of the source). -/
def Z_value (cfg : Config) : ℝ := normPPF cfg.service_level

/-! ## Demand aggregation helpers -/

/-- The recurring source pattern
`sum(f(market_area_data[a]) for a in served if a in market_area_data)`:
served markets absent from the table contribute nothing. -/
def sumServed {M : Type} [AddCommMonoid M] (mkts : MarketTable)
    (served : List String) (f : MarketArea → M) : M :=
  (served.map fun a =>
    match List.lookup a mkts with
    | some ma => f ma
    | none => 0).sum

/-- Sum of one month's forecast over a warehouse's served markets present in
the table (the inner loop of `compute_max_monthly_forecast`). -/
def monthForecastSum (mkts : MarketTable) (served : List String)
    (m : Fin 12) : ℕ :=
  sumServed mkts served fun ma => ma.forecast_demand m

/-- `compute_max_monthly_forecast` (lines 313-323): running maximum over the
12 monthly sums, starting from 0; `if month_sum > max_monthly` updates the
maximum, i.e. a fold of `max`. -/
def compute_max_monthly_forecast (mkts : MarketTable) (wh : Warehouse) : ℕ :=
  (List.finRange 12).foldl
    (fun max_monthly m => max max_monthly (monthForecastSum mkts wh.served_markets m)) 0

/-- `compute_max_monthly_forecast_front` (lines 325-326), delegating to
`compute_max_monthly_forecast`. -/
def compute_max_monthly_forecast_front (mkts : MarketTable) (wh : Warehouse) : ℕ :=
  compute_max_monthly_forecast mkts wh

/-- `compute_daily_demand_sum` (lines 328-333). -/
def compute_daily_demand_sum (mkts : MarketTable) (wh : Warehouse) : ℕ :=
  sumServed mkts wh.served_markets fun ma => ma.avg_daily_demand

/-- `sum(market_area_data[area]["forecast_demand"])`: annual forecast of a
single market area. -/
def annualForecast (ma : MarketArea) : ℕ :=
  ∑ m : Fin 12, ma.forecast_demand m

/-- Annual demand over a warehouse's served markets present in the table
(inlined at lines 407-410 and 434-437 of the source). -/
def annualDemandServed (mkts : MarketTable) (wh : Warehouse) : ℕ :=
  sumServed mkts wh.served_markets fun ma => annualForecast ma

/-! ## Safety stock -/

/-- The accumulated `front_daily_demand` of lines 302-309 and 397-404: sum
of `avg_daily_demand` over served markets for every FRONT warehouse in the
network (accumulated into a float). -/
def frontDailyDemand (mkts : MarketTable) (warehouse_data : List Warehouse) : ℝ :=
  (warehouse_data.map fun wh =>
    if wh.type = WhType.FRONT
    then ((sumServed mkts wh.served_markets fun ma => ma.avg_daily_demand : ℕ) : ℝ)
    else 0).sum

/-- `compute_safety_stock_main` (lines 294-311).  Reads the globals
`market_area_data`, `warehouse_data` and `Z_value`, passed here explicitly. -/
def compute_safety_stock_main (mkts : MarketTable) (warehouse_data : List Warehouse)
    (z : ℝ) (wh : Warehouse) (layout : Layout) : ℝ :=
  let std_sum : ℝ := sumServed mkts wh.served_markets fun ma => ma.std_daily_demand
  let LT : ℕ := wh.lt_shipping.getD 0
  let safety_stock_main := std_sum * Real.sqrt LT * z
  if layout = Layout.CentralFronts then
    safety_stock_main + 12 * frontDailyDemand mkts warehouse_data
  else
    safety_stock_main

/-- Safety stock of a warehouse as invoked by the calculators (line 351):
`compute_safety_stock_main(wh, layout_type)` with the global `Z_value`. -/
def safetyStockOf (mkts : MarketTable) (warehouse_data : List Warehouse)
    (cfg : Config) (wh : Warehouse) : ℝ :=
  compute_safety_stock_main mkts warehouse_data (Z_value cfg) wh cfg.layout_type

/-! ## Rental cost (lines 339-373) -/

/-- One iteration of the rental loop (lines 341-363): the `(cost, area)`
pair for one warehouse.  The Python float division
`wh_rental_cost / rent_price` raises `ZeroDivisionError` when `rent_price`
is zero (both PER_AREA branches), modelled as `Except.error`. -/
def rentalEntry (mkts : MarketTable) (warehouse_data : List Warehouse)
    (cfg : Config) (wh : Warehouse) : Except String (ℝ × ℝ) :=
  match wh.rent_pricing_method with
  | RentMethod.FixedRent => Except.ok (wh.rent_price, 0)
  | RentMethod.SqFtRent =>
    if wh.type = WhType.MAIN then
      let max_monthly := compute_max_monthly_forecast mkts wh
      let safety_stock_main := safetyStockOf mkts warehouse_data cfg wh
      let total_units : ℝ := (max_monthly : ℝ) + safety_stock_main
      let wh_rental_cost :=
        wh.rent_price * cfg.sq_ft_per_unit * cfg.overhead_factor_main * total_units
      if wh.rent_price = 0 then Except.error "ZeroDivisionError"
      else Except.ok (wh_rental_cost, wh_rental_cost / wh.rent_price)
    else
      let max_monthly := compute_max_monthly_forecast_front mkts wh
      let daily_sum := compute_daily_demand_sum mkts wh
      let total_units : ℝ := ((max_monthly : ℝ) / 4.0) + ((daily_sum : ℝ) * 12.0)
      let wh_rental_cost :=
        wh.rent_price * cfg.sq_ft_per_unit * cfg.overhead_factor_front * total_units
      if wh.rent_price = 0 then Except.error "ZeroDivisionError"
      else Except.ok (wh_rental_cost, wh_rental_cost / wh.rent_price)

/-- The rental loop over a list of warehouses, returning the per-warehouse
entries and the accumulated `total_rental_cost`; an uncaught
`ZeroDivisionError` aborts the whole run. -/
def rentalLoop (mkts : MarketTable) (warehouse_data : List Warehouse)
    (cfg : Config) : List Warehouse → Except String (List (ℝ × ℝ) × ℝ)
  | [] => Except.ok ([], 0)
  | wh :: rest =>
    match rentalEntry mkts warehouse_data cfg wh with
    | Except.error e => Except.error e
    | Except.ok entry =>
      match rentalLoop mkts warehouse_data cfg rest with
      | Except.error e => Except.error e
      | Except.ok (entries, total) => Except.ok (entry :: entries, entry.1 + total)

/-- `Calculate Rental Costs` (lines 339-373): the loop runs over the global
`warehouse_data`, which is also the list read by
`compute_safety_stock_main`. -/
def calculateRentalCosts (mkts : MarketTable) (warehouse_data : List Warehouse)
    (cfg : Config) : Except String (List (ℝ × ℝ) × ℝ) :=
  rentalLoop mkts warehouse_data cfg warehouse_data

/-! ## Inventory financing (lines 379-452) -/

/-- Result of the inventory financing block: `st.error` messages plus the
three accumulated figures (initialized to 0 at lines 380-382). -/
structure FinancingResult where
  errors : List String
  total_safety_stock : ℝ
  total_avg_inventory : ℝ
  financing_cost : ℝ

/-- Per-MAIN-warehouse safety stock of the Main Regionals financing branch
(lines 426-432). -/
def mrSafetyStock (mkts : MarketTable) (cfg : Config) (wh : Warehouse) : ℝ :=
  (sumServed mkts wh.served_markets fun ma => ma.std_daily_demand)
    * Real.sqrt (wh.lt_shipping.getD 0 : ℕ) * Z_value cfg

/-- Per-MAIN-warehouse average inventory of the Main Regionals financing
branch (lines 434-439). -/
def mrAvgInventory (mkts : MarketTable) (cfg : Config) (wh : Warehouse) : ℝ :=
  ((annualDemandServed mkts wh : ℕ) : ℝ) / 12.0 + mrSafetyStock mkts cfg wh

/-- `Calculate Inventory Financing` (lines 379-447). -/
def calculateInventoryFinancing (mkts : MarketTable) (whs : List Warehouse)
    (cfg : Config) : FinancingResult :=
  match cfg.layout_type with
  | Layout.CentralFronts =>
    match whs.find? (fun w => w.type = WhType.MAIN) with
    | none =>
      { errors := ["No MAIN warehouse found for Central and Fronts layout."]
        total_safety_stock := 0
        total_avg_inventory := 0
        financing_cost := 0 }
    | some main_wh =>
      let std_sum : ℝ := sumServed mkts main_wh.served_markets fun ma => ma.std_daily_demand
      let LT : ℕ := main_wh.lt_shipping.getD 0
      let safety_stock_main := std_sum * Real.sqrt LT * Z_value cfg
      let safety_stock := safety_stock_main + 12 * frontDailyDemand mkts whs
      let annual_demand : ℝ := ((annualDemandServed mkts main_wh : ℕ) : ℝ)
      let avg_inventory := annual_demand / 12.0 + safety_stock
      let fc := avg_inventory * 1.08 * (cfg.interest_rate / 100.0) * (cfg.unit_cost : ℝ)
      { errors := []
        total_safety_stock := safety_stock
        total_avg_inventory := avg_inventory
        financing_cost := fc }
  | Layout.MainRegionals =>
    let overall_safety_stock :=
      (whs.map fun wh =>
        if wh.type = WhType.MAIN then mrSafetyStock mkts cfg wh else 0).sum
    let overall_avg_inventory :=
      (whs.map fun wh =>
        if wh.type = WhType.MAIN then mrAvgInventory mkts cfg wh else 0).sum
    { errors := []
      total_safety_stock := overall_safety_stock
      total_avg_inventory := overall_avg_inventory
      financing_cost := overall_avg_inventory * 1.08 * (cfg.interest_rate / 100.0) * (cfg.unit_cost : ℝ) }

/-- Lines 449-452: the "Inventory Financing Results" block, executed
unconditionally after the calculation — also on the missing-MAIN error
path.  The `Option` records whether figures are shown to the user at all;
the source always shows them (`some`). -/
def displayedFigures (r : FinancingResult) : Option (ℝ × ℝ × ℝ) :=
  some (r.total_safety_stock, r.total_avg_inventory, r.financing_cost)

/-! ## Shipping cost, sea leg (lines 471-492) -/

/-- One step of the sea-cost accumulation over a MAIN warehouse's served
markets (lines 478-482 / 487-491): markets absent from the table are
skipped; otherwise `containers = annual_forecast / container_capacity_40`
and the cost `containers * wh["shipping_cost_40hc"]` is added.  Dividing
by a zero capacity raises `ZeroDivisionError`. -/
def whSeaStep (mkts : MarketTable) (cap : ℕ) (wh : Warehouse)
    (acc : Except String ℝ) (a : String) : Except String ℝ :=
  match acc with
  | Except.error e => Except.error e
  | Except.ok c =>
    match List.lookup a mkts with
    | none => Except.ok c
    | some ma =>
      if cap = 0 then Except.error "ZeroDivisionError"
      else Except.ok (c + ((annualForecast ma : ℝ) / (cap : ℝ)) * (wh.shipping_cost_40hc : ℝ))

/-- Sea cost accumulated over one MAIN warehouse's served markets. -/
def whSeaCost (mkts : MarketTable) (cap : ℕ) (wh : Warehouse) : Except String ℝ :=
  wh.served_markets.foldl (whSeaStep mkts cap wh) (Except.ok 0)

/-- One step of the Main Regionals sea loop (lines 484-492): the per-MAIN
warehouse sea cost is added into the running total, FRONT warehouses are
skipped. -/
def mrSeaStep (mkts : MarketTable) (cap : ℕ)
    (acc : Except String (List String × ℝ)) (wh : Warehouse) :
    Except String (List String × ℝ) :=
  match acc with
  | Except.error e => Except.error e
  | Except.ok p =>
    if wh.type = WhType.MAIN then
      match whSeaCost mkts cap wh with
      | Except.error e => Except.error e
      | Except.ok c => Except.ok (p.1, p.2 + c)
    else Except.ok p

/-- The sea leg of `Calculate Shipping Costs` (lines 471-492): under
"Central and Fronts" only the first MAIN warehouse (`next(...)`) is used,
with an `st.error` (and a zero total) when none exists; under
"Main Regionals" the loop covers every MAIN warehouse. -/
def seaShipping (mkts : MarketTable) (whs : List Warehouse)
    (cfg : Config) : Except String (List String × ℝ) :=
  match cfg.layout_type with
  | Layout.CentralFronts =>
    match whs.find? (fun w => w.type = WhType.MAIN) with
    | none =>
      Except.ok (["No MAIN warehouse found for shipping cost calculation (Central & Fronts)."], 0)
    | some main_wh =>
      match whSeaCost mkts cfg.container_capacity_40 main_wh with
      | Except.error e => Except.error e
      | Except.ok c => Except.ok ([], c)
  | Layout.MainRegionals =>
    whs.foldl (mrSeaStep mkts cfg.container_capacity_40) (Except.ok ([], 0))

/-- Spec-side definition, for comparison with `whSeaCost`: the spec's
"for each served market, `containers = annualForecast(market) /
containerCapacity40`; `seaCost += containers * wh.seaFreightCostPer40HC`"
for a single warehouse. -/
def specWhSeaCost (mkts : MarketTable) (cap : ℕ) (wh : Warehouse) : ℝ :=
  sumServed mkts wh.served_markets fun ma =>
    ((annualForecast ma : ℝ) / (cap : ℝ)) * (wh.shipping_cost_40hc : ℝ)

/-- Spec-side definition, for comparison with `seaShipping`: the spec's
"the reported sea total is the sum over all MAIN warehouses". -/
def specSeaCost (mkts : MarketTable) (cap : ℕ) (whs : List Warehouse) : ℝ :=
  (whs.map fun wh =>
    if wh.type = WhType.MAIN then specWhSeaCost mkts cap wh else 0).sum

/-! ## Shipping cost, Main Regionals land leg (lines 512-527) -/

/-- `orders = annual_forecast / avg_order if avg_order > 0 else 0`
(line 523). -/
def mrOrders (ma : MarketArea) : ℝ :=
  if 0 < ma.avg_order_size
  then (annualForecast ma : ℝ) / (ma.avg_order_size : ℝ)
  else 0

/-- Land-shipping contribution of a single non-primary served market of a
MAIN warehouse (lines 520-526):
`area_land_cost = distance * shipping_cost_per_order_unit * orders`, with
`distance = additional_market_distances.get(area, 0)`; markets absent from
the table are skipped. -/
def mrMarketLandCost (cfg : Config) (mkts : MarketTable) (a : String) : ℝ :=
  match List.lookup a mkts with
  | none => 0
  | some ma =>
    let distance := (List.lookup a cfg.additional_market_distances).getD 0
    distance * cfg.shipping_cost_per_order_unit * mrOrders ma

/-- Land cost of one MAIN warehouse under Main Regionals (lines 515-527):
the first served market is the primary and is skipped; the remaining
(`served[1:]`) markets each contribute `mrMarketLandCost`. -/
def mrWhLandCost (cfg : Config) (mkts : MarketTable) (wh : Warehouse) : ℝ :=
  match wh.served_markets with
  | [] => 0
  | _primary :: rest => (rest.map fun a => mrMarketLandCost cfg mkts a).sum

/-- The Main Regionals land leg total (lines 512-527). -/
def mrLandShipping (cfg : Config) (mkts : MarketTable)
    (whs : List Warehouse) : ℝ :=
  (whs.map fun wh =>
    if wh.type = WhType.MAIN then mrWhLandCost cfg mkts wh else 0).sum

/-! ## Labor cost (lines 540-555) -/

/-- `labor_cost = wh["avg_employee_salary"] * wh["num_employees"]`
(line 544). -/
def laborCost (wh : Warehouse) : ℕ :=
  wh.avg_employee_salary * wh.num_employees

/-- `Calculate Labor Costs` (lines 540-546): the accumulated
`total_labor_cost`. -/
def calculateLaborCosts (whs : List Warehouse) : ℕ :=
  whs.foldl (fun total wh => total + wh.avg_employee_salary * wh.num_employees) 0

/-! ## Concrete instances used in witnesses and counterexamples -/

/-- A market with constant monthly forecast 50 (annual 600). -/
def maA : MarketArea :=
  { avg_order_size := 100, avg_daily_demand := 50, std_daily_demand := 10
    forecast_demand := fun _ => 50 }

/-- A market with constant monthly forecast 100 (annual 1200). -/
def maB : MarketArea :=
  { avg_order_size := 100, avg_daily_demand := 50, std_daily_demand := 10
    forecast_demand := fun _ => 100 }

/-- A market with unit demand variability and no forecast. -/
def maStd : MarketArea :=
  { avg_order_size := 100, avg_daily_demand := 50, std_daily_demand := 1
    forecast_demand := fun _ => 0 }

/-- A market with average order size 0. -/
def maZeroOrder : MarketArea :=
  { avg_order_size := 0, avg_daily_demand := 50, std_daily_demand := 10
    forecast_demand := fun _ => 50 }

def mktsAB : MarketTable := [("CAN", maA), ("NE", maB)]

def mktsStd : MarketTable := [("CAN", maStd)]

def mktsZeroOrder : MarketTable := [("TX", maZeroOrder)]

/-- A MAIN warehouse at CAN with the source's default parameters. -/
def whMainCAN : Warehouse :=
  { location := "CAN", type := WhType.MAIN, served_markets := ["CAN"]
    rent_pricing_method := RentMethod.FixedRent, rent_price := 1000
    avg_employee_salary := 50000, num_employees := 3, lt_shipping := some 5
    shipping_cost_40hc := 2000, front_shipping_cost_40 := 0, front_shipping_cost_53 := 0 }

def whMainNE : Warehouse :=
  { whMainCAN with location := "NE", served_markets := ["NE"] }

def whFrontNE : Warehouse :=
  { whMainCAN with
    location := "NE", served_markets := ["NE"], type := WhType.FRONT,
    num_employees := 2, front_shipping_cost_40 := 500, front_shipping_cost_53 := 600 }

/-- A FRONT warehouse with PER_AREA pricing and zero rent price. -/
def whBadRent : Warehouse :=
  { whMainCAN with
    type := WhType.FRONT,
    rent_pricing_method := RentMethod.SqFtRent, rent_price := 0 }

def whTwoMarkets : Warehouse :=
  { whMainCAN with served_markets := ["CAN", "NE"] }

/-- A MAIN warehouse serving the unit-variability market, with lead time
`lt`. -/
def whStd (lt : ℕ) : Warehouse :=
  { whMainCAN with lt_shipping := some lt }

/-- The source's default global configuration (Central and Fronts). -/
def cfgCF : Config :=
  { interest_rate := 5, service_level := 0.95, layout_type := Layout.CentralFronts
    shipping_cost_rate := 1, unit_cost := 10, sq_ft_per_unit := 0.8
    overhead_factor_main := 1.2, overhead_factor_front := 1.5
    container_capacity_40 := 600, additional_market_distances := []
    shipping_cost_per_order_unit := 0.5 }

def cfgMR : Config := { cfgCF with layout_type := Layout.MainRegionals }

/-- Main Regionals configuration with service level 1/4 (below one half). -/
def cfgQuarter : Config := { cfgMR with service_level := 1/4 }

/-- Main Regionals configuration with service level 0. -/
def cfgZero : Config := { cfgMR with service_level := 0 }

/-! ## Helper lemmas -/

theorem sumServed_perm {M : Type} [AddCommMonoid M] (mkts : MarketTable)
    {l1 l2 : List String} (h : l1.Perm l2) (f : MarketArea → M) :
    sumServed mkts l1 f = sumServed mkts l2 f :=
  (h.map _).sum_eq

theorem sumServed_filter {M : Type} [AddCommMonoid M] (mkts : MarketTable)
    (served : List String) (f : MarketArea → M) :
    sumServed mkts (served.filter fun a => (List.lookup a mkts).isSome) f
      = sumServed mkts served f := by
  induction served with
  | nil => rfl
  | cons a l ih =>
    unfold sumServed at ih ⊢
    cases h : List.lookup a mkts with
    | none => simp [List.filter_cons, h, ih]
    | some ma => simp [List.filter_cons, h, ih]

theorem sum_map_if {α M : Type} [AddCommMonoid M] (l : List α)
    (p : α → Prop) [DecidablePred p] (f : α → M) :
    (l.map fun x => if p x then f x else 0).sum = ((l.filter fun x => p x).map f).sum := by
  induction l with
  | nil => rfl
  | cons a l ih =>
    by_cases h : p a <;> simp [List.filter_cons, h, ih]

theorem sumServed_nil {M : Type} [AddCommMonoid M] (mkts : MarketTable)
    (f : MarketArea → M) : sumServed mkts [] f = 0 := rfl

theorem sumServed_cons {M : Type} [AddCommMonoid M] (mkts : MarketTable)
    (a : String) (t : List String) (f : MarketArea → M) :
    sumServed mkts (a :: t) f
      = (match List.lookup a mkts with | some ma => f ma | none => 0)
        + sumServed mkts t f := by
  unfold sumServed
  simp

theorem foldl_add_eq {α : Type} (f : α → ℕ) (l : List α) (n : ℕ) :
    l.foldl (fun t x => t + f x) n = n + (l.map f).sum := by
  induction l generalizing n with
  | nil => simp
  | cons a l ih => simp [ih, Nat.add_assoc]

/-! ## Claim theorems -/

/-- Claim C10: the labor calculator computes each warehouse's annual labor
cost as `avg_employee_salary * num_employees`, and the reported network
total is the sum of these products over every warehouse in the list. -/
theorem labor_cost_correct :
    (∀ wh : Warehouse, laborCost wh = wh.avg_employee_salary * wh.num_employees)
    ∧ ∀ whs : List Warehouse, calculateLaborCosts whs = (whs.map laborCost).sum := by
  refine ⟨fun wh => rfl, fun whs => ?_⟩
  unfold calculateLaborCosts laborCost
  simpa using foldl_add_eq (fun wh => wh.avg_employee_salary * wh.num_employees) whs 0

/-- Claim C7: the demand aggregation functions are total, and served market
codes absent from the market table contribute zero: each aggregate equals
the same aggregate computed over only the served markets present in the
table. -/
theorem aggregators_skip_unknown_markets (mkts : MarketTable) (wh : Warehouse) :
    compute_max_monthly_forecast mkts wh
      = compute_max_monthly_forecast mkts
          { wh with served_markets := wh.served_markets.filter fun a => (List.lookup a mkts).isSome }
    ∧ compute_daily_demand_sum mkts wh
      = compute_daily_demand_sum mkts
          { wh with served_markets := wh.served_markets.filter fun a => (List.lookup a mkts).isSome }
    ∧ annualDemandServed mkts wh
      = annualDemandServed mkts
          { wh with served_markets := wh.served_markets.filter fun a => (List.lookup a mkts).isSome } := by
  refine ⟨?_, ?_, ?_⟩
  · unfold compute_max_monthly_forecast monthForecastSum
    simp [sumServed_filter]
  · unfold compute_daily_demand_sum
    simp [sumServed_filter]
  · unfold annualDemandServed
    simp [sumServed_filter]

/-- Claim C6: `maxMonthlyForecast` is non-negative and invariant under any
reordering of the warehouse's served-market list. -/
theorem max_monthly_forecast_nonneg_and_perm_invariant (mkts : MarketTable)
    (wh : Warehouse) (l2 : List String) (h : wh.served_markets.Perm l2) :
    0 ≤ compute_max_monthly_forecast mkts wh
    ∧ compute_max_monthly_forecast mkts wh
        = compute_max_monthly_forecast mkts { wh with served_markets := l2 } := by
  refine ⟨Nat.zero_le _, ?_⟩
  unfold compute_max_monthly_forecast monthForecastSum
  simp only
  congr 1
  funext acc m
  rw [sumServed_perm mkts h]

/-- Witness for C6 at a concrete warehouse and reordering. -/
theorem max_monthly_forecast_nonneg_and_perm_invariant_witness :
    0 ≤ compute_max_monthly_forecast mktsAB whTwoMarkets
    ∧ compute_max_monthly_forecast mktsAB whTwoMarkets
        = compute_max_monthly_forecast mktsAB { whTwoMarkets with served_markets := ["NE", "CAN"] } :=
  max_monthly_forecast_nonneg_and_perm_invariant mktsAB whTwoMarkets ["NE", "CAN"]
    (List.Perm.swap "NE" "CAN" [])

/-- Claim C2: for every warehouse, `compute_safety_stock_main` equals
`stdSum * sqrt(leadTimeDays) * zScore`, plus — exactly when the layout is
CENTRAL_FRONTS — `12 * Σ dailyDemandSum(front_wh)` over the FRONT
warehouses of the network; under MAIN_REGIONALS nothing is added. -/
theorem safety_stock_main_formula (mkts : MarketTable) (whs : List Warehouse)
    (z : ℝ) (wh : Warehouse) :
    compute_safety_stock_main mkts whs z wh Layout.CentralFronts
      = (sumServed mkts wh.served_markets fun ma => ma.std_daily_demand)
          * Real.sqrt (wh.lt_shipping.getD 0 : ℕ) * z
        + 12 * ((whs.filter fun w => w.type = WhType.FRONT).map
            fun w => ((compute_daily_demand_sum mkts w : ℕ) : ℝ)).sum
    ∧ compute_safety_stock_main mkts whs z wh Layout.MainRegionals
      = (sumServed mkts wh.served_markets fun ma => ma.std_daily_demand)
          * Real.sqrt (wh.lt_shipping.getD 0 : ℕ) * z := by
  constructor
  · unfold compute_safety_stock_main frontDailyDemand
    rw [if_pos rfl]
    congr 2
    rw [sum_map_if whs (fun w => w.type = WhType.FRONT)
      (fun w => ((sumServed mkts w.served_markets fun ma => ma.avg_daily_demand : ℕ) : ℝ))]
    simp [compute_daily_demand_sum]
  · unfold compute_safety_stock_main
    simp

/-- Claim C8: under FIXED rent pricing the rental entry is exactly
`(rent_price, 0)` — cost equals the configured rent price, the reported
area is 0 — independent of the market table, the warehouse list and the
configuration (all demand data). -/
theorem fixed_rent_isolated (mkts : MarketTable) (whs : List Warehouse)
    (cfg : Config) (wh : Warehouse)
    (h : wh.rent_pricing_method = RentMethod.FixedRent) :
    rentalEntry mkts whs cfg wh = Except.ok (wh.rent_price, 0) := by
  unfold rentalEntry
  rw [h]

/-- Witness for C8 at a concrete warehouse, with an empty market table. -/
theorem fixed_rent_isolated_witness :
    rentalEntry [] [] cfgCF whMainCAN = Except.ok (whMainCAN.rent_price, 0) :=
  fixed_rent_isolated [] [] cfgCF whMainCAN rfl

/-- Claim C9: in the Main Regionals land leg, a non-primary served market
with average order size 0 yields an order count of 0 and contributes 0 to
the land cost (the guarded division makes the computation total: no
division-by-zero failure is possible); the per-warehouse land cost is the
sum of the non-primary market contributions. -/
theorem mr_land_zero_order_size (cfg : Config) (mkts : MarketTable)
    (a : String) (ma : MarketArea)
    (hma : List.lookup a mkts = some ma) (h0 : ma.avg_order_size = 0) :
    mrOrders ma = 0 ∧ mrMarketLandCost cfg mkts a = 0
    ∧ ∀ wh : Warehouse, ∀ p : String, ∀ rest : List String,
        wh.served_markets = p :: rest →
        mrWhLandCost cfg mkts wh = (rest.map fun b => mrMarketLandCost cfg mkts b).sum := by
  have horders : mrOrders ma = 0 := by
    unfold mrOrders
    rw [h0]
    simp
  refine ⟨horders, ?_, ?_⟩
  · unfold mrMarketLandCost
    rw [hma]
    simp [horders]
  · intro wh p rest hserved
    unfold mrWhLandCost
    rw [hserved]

/-- Witness for C9 at a concrete market with average order size 0. -/
theorem mr_land_zero_order_size_witness :
    mrOrders maZeroOrder = 0 ∧ mrMarketLandCost cfgMR mktsZeroOrder "TX" = 0
    ∧ ∀ wh : Warehouse, ∀ p : String, ∀ rest : List String,
        wh.served_markets = p :: rest →
        mrWhLandCost cfgMR mktsZeroOrder wh
          = (rest.map fun b => mrMarketLandCost cfgMR mktsZeroOrder b).sum :=
  mr_land_zero_order_size cfgMR mktsZeroOrder "TX" maZeroOrder rfl rfl

/-- A PER_AREA warehouse with zero rent price makes its own rental entry a
`ZeroDivisionError`. -/
theorem rentalEntry_zero_price_error (mkts : MarketTable) (whs : List Warehouse)
    (cfg : Config) (wh : Warehouse)
    (hm : wh.rent_pricing_method = RentMethod.SqFtRent) (hp : wh.rent_price = 0) :
    rentalEntry mkts whs cfg wh = Except.error "ZeroDivisionError" := by
  unfold rentalEntry
  rw [hm]
  by_cases ht : wh.type = WhType.MAIN <;> simp [ht, hp]

/-- Claim C4: if any warehouse in the list uses PER_AREA pricing with a
zero rent price, the rental calculator fails with a reported error (the
Python `ZeroDivisionError` raised by the area derivation); since the run
aborts, no infinite or NaN area is ever produced. -/
theorem per_area_zero_rent_reported (mkts : MarketTable) (whs : List Warehouse)
    (cfg : Config) (wh : Warehouse) (hmem : wh ∈ whs)
    (hm : wh.rent_pricing_method = RentMethod.SqFtRent) (hp : wh.rent_price = 0) :
    ∃ e, calculateRentalCosts mkts whs cfg = Except.error e := by
  unfold calculateRentalCosts
  suffices h : ∀ l : List Warehouse, wh ∈ l →
      ∃ e, rentalLoop mkts whs cfg l = Except.error e from h whs hmem
  intro l hl
  induction l with
  | nil => cases hl
  | cons w rest ih =>
    rcases List.mem_cons.mp hl with hw | hw
    · subst hw
      refine ⟨"ZeroDivisionError", ?_⟩
      unfold rentalLoop
      rw [rentalEntry_zero_price_error mkts whs cfg wh hm hp]
    · cases hE : rentalEntry mkts whs cfg w with
      | error e =>
        refine ⟨e, ?_⟩
        unfold rentalLoop
        rw [hE]
      | ok entry =>
        obtain ⟨e, he⟩ := ih hw
        refine ⟨e, ?_⟩
        unfold rentalLoop
        rw [hE, he]

/-- Witness for C4 at a concrete offending warehouse. -/
theorem per_area_zero_rent_reported_witness :
    ∃ e, calculateRentalCosts mktsStd [whBadRent] cfgCF = Except.error e :=
  per_area_zero_rent_reported mktsStd [whBadRent] cfgCF whBadRent
    (List.mem_singleton.mpr rfl) rfl rfl

/-- Counterexample to claim C3 as stated: with CENTRAL_FRONTS layout and a
warehouse list containing no MAIN warehouse, the inventory financing block
reports the error but does NOT withhold a result — the results section
still displays (safety stock, average inventory, financing cost) =
(0, 0, 0). -/
theorem financing_missing_main_counterexample :
    (calculateInventoryFinancing mktsStd [whFrontNE] cfgCF).errors
        = ["No MAIN warehouse found for Central and Fronts layout."]
    ∧ displayedFigures (calculateInventoryFinancing mktsStd [whFrontNE] cfgCF)
        = some (0, 0, 0) := by
  constructor <;> rfl

/-- Claim C3 (amended): with CENTRAL_FRONTS layout and no MAIN warehouse,
the financing calculator reports a user-visible error, and the figures it
computes and displays default to zero — a zero result is still displayed
rather than withheld. -/
theorem financing_missing_main_amended (mkts : MarketTable) (whs : List Warehouse)
    (cfg : Config) (hl : cfg.layout_type = Layout.CentralFronts)
    (hno : ∀ wh ∈ whs, wh.type ≠ WhType.MAIN) :
    (calculateInventoryFinancing mkts whs cfg).errors
        = ["No MAIN warehouse found for Central and Fronts layout."]
    ∧ displayedFigures (calculateInventoryFinancing mkts whs cfg) = some (0, 0, 0) := by
  have hfind : whs.find? (fun w => w.type = WhType.MAIN) = none := by
    rw [List.find?_eq_none]
    intro w hw
    simpa using hno w hw
  unfold calculateInventoryFinancing
  rw [hl, hfind]
  exact ⟨rfl, rfl⟩

/-- Witness for the amended C3 at a concrete FRONT-only network. -/
theorem financing_missing_main_amended_witness :
    (calculateInventoryFinancing mktsAB [whFrontNE] cfgCF).errors
        = ["No MAIN warehouse found for Central and Fronts layout."]
    ∧ displayedFigures (calculateInventoryFinancing mktsAB [whFrontNE] cfgCF)
        = some (0, 0, 0) :=
  financing_missing_main_amended mktsAB [whFrontNE] cfgCF rfl
    (by
      intro wh hw
      rw [List.mem_singleton] at hw
      subst hw
      simp [whFrontNE])

/-- With a nonzero container capacity, the sea cost accumulated over one
warehouse's served markets never raises and equals the spec-side
per-warehouse sum. -/
theorem whSeaCost_eq_spec (mkts : MarketTable) (cap : ℕ) (hcap : cap ≠ 0)
    (wh : Warehouse) :
    whSeaCost mkts cap wh = Except.ok (specWhSeaCost mkts cap wh) := by
  unfold whSeaCost specWhSeaCost
  suffices h : ∀ (l : List String) (c : ℝ),
      l.foldl (whSeaStep mkts cap wh) (Except.ok c)
      = Except.ok (c + sumServed mkts l fun ma =>
          ((annualForecast ma : ℝ) / (cap : ℝ)) * (wh.shipping_cost_40hc : ℝ)) by
    rw [h wh.served_markets 0, zero_add]
  intro l
  induction l with
  | nil =>
    intro c
    simp [sumServed_nil]
  | cons a t ih =>
    intro c
    rw [List.foldl_cons]
    cases hla : List.lookup a mkts with
    | none =>
      have hstep : whSeaStep mkts cap wh (Except.ok c) a = Except.ok c := by
        simp [whSeaStep, hla]
      rw [hstep, ih, sumServed_cons, hla]
      norm_num
    | some ma =>
      have hstep : whSeaStep mkts cap wh (Except.ok c) a
          = Except.ok (c + ((annualForecast ma : ℝ) / (cap : ℝ)) * (wh.shipping_cost_40hc : ℝ)) := by
        simp [whSeaStep, hla, hcap]
      rw [hstep, ih, sumServed_cons, hla, add_assoc]

/-- With a nonzero capacity the Main Regionals sea loop equals the
spec-side sum over every MAIN warehouse. -/
theorem mrSea_foldl_ok (mkts : MarketTable) (cap : ℕ) (hcap : cap ≠ 0) :
    ∀ (l : List Warehouse) (p : List String × ℝ),
      l.foldl (mrSeaStep mkts cap) (Except.ok p)
        = Except.ok (p.1, p.2 + specSeaCost mkts cap l) := by
  intro l
  induction l with
  | nil =>
    intro p
    simp [specSeaCost]
  | cons w t ih =>
    intro p
    rw [List.foldl_cons]
    by_cases ht : w.type = WhType.MAIN
    · have hstep : mrSeaStep mkts cap (Except.ok p) w
          = Except.ok (p.1, p.2 + specWhSeaCost mkts cap w) := by
        simp [mrSeaStep, ht, whSeaCost_eq_spec mkts cap hcap w]
      rw [hstep, ih]
      simp [specSeaCost, ht, add_assoc]
    · have hstep : mrSeaStep mkts cap (Except.ok p) w = Except.ok p := by
        simp [mrSeaStep, ht]
      rw [hstep, ih]
      simp [specSeaCost, ht]

/-- Counterexample to claim C1 as stated: under CENTRAL_FRONTS with two
MAIN warehouses the code's sea total uses only the first MAIN warehouse
(2000), while the sum over every MAIN warehouse is 6000. -/
theorem sea_cost_counterexample :
    seaShipping mktsAB [whMainCAN, whMainNE] cfgCF = Except.ok ([], 2000)
    ∧ specSeaCost mktsAB 600 [whMainCAN, whMainNE] = 6000
    ∧ (2000 : ℝ) ≠ 6000 := by
  refine ⟨?_, ?_, by norm_num⟩
  · show (match whSeaCost mktsAB 600 whMainCAN with
      | Except.error e => Except.error e
      | Except.ok c => Except.ok ([], c)) = Except.ok ([], (2000 : ℝ))
    have h : whSeaCost mktsAB 600 whMainCAN = Except.ok 2000 := by
      unfold whSeaCost
      show Except.ok (0 + ((annualForecast maA : ℝ) / ((600 : ℕ) : ℝ))
          * ((2000 : ℕ) : ℝ)) = Except.ok (2000 : ℝ)
      have hA : annualForecast maA = 600 := by
        unfold annualForecast maA
        simp
      rw [hA]
      norm_num
    rw [h]
  · have hCAN : List.lookup "CAN" mktsAB = some maA := rfl
    have hNE : List.lookup "NE" mktsAB = some maB := rfl
    have hA : annualForecast maA = 600 := by
      unfold annualForecast maA
      simp
    have hB : annualForecast maB = 1200 := by
      unfold annualForecast maB
      simp
    unfold specSeaCost specWhSeaCost
    simp only [List.map_cons, List.map_nil, List.sum_cons, List.sum_nil]
    rw [show whMainCAN.served_markets = ["CAN"] from rfl,
      show whMainNE.served_markets = ["NE"] from rfl,
      if_pos (show whMainCAN.type = WhType.MAIN from rfl),
      if_pos (show whMainNE.type = WhType.MAIN from rfl),
      sumServed_cons, sumServed_cons, hCAN, hNE]
    simp only [sumServed_nil]
    norm_num [hA, hB, show whMainCAN.shipping_cost_40hc = 2000 from rfl,
      show whMainNE.shipping_cost_40hc = 2000 from rfl]

/-- Claim C1 (amended): the sea total sums the per-warehouse container
costs over every MAIN warehouse only under MAIN_REGIONALS; under
CENTRAL_FRONTS the code uses only the first MAIN warehouse of the list
(reporting an error, with a zero total, when none exists). -/
theorem sea_cost_amended (mkts : MarketTable) (whs : List Warehouse)
    (cfg : Config) (hcap : cfg.container_capacity_40 ≠ 0) :
    (cfg.layout_type = Layout.MainRegionals →
      seaShipping mkts whs cfg
        = Except.ok ([], specSeaCost mkts cfg.container_capacity_40 whs))
    ∧ (cfg.layout_type = Layout.CentralFronts →
      seaShipping mkts whs cfg
        = match whs.find? (fun w => w.type = WhType.MAIN) with
          | none =>
            Except.ok (["No MAIN warehouse found for shipping cost calculation (Central & Fronts)."], 0)
          | some main_wh =>
            Except.ok ([], specWhSeaCost mkts cfg.container_capacity_40 main_wh)) := by
  constructor
  · intro hmr
    unfold seaShipping
    rw [hmr]
    rw [mrSea_foldl_ok mkts cfg.container_capacity_40 hcap whs ([], 0)]
    norm_num
  · intro hcf
    unfold seaShipping
    rw [hcf]
    cases hfind : whs.find? (fun w => w.type = WhType.MAIN) with
    | none => rfl
    | some main_wh =>
      simp only [whSeaCost_eq_spec mkts cfg.container_capacity_40 hcap main_wh]

/-- Witness for the amended C1: the MAIN_REGIONALS sea total at a concrete
two-MAIN network equals the sum over every MAIN warehouse. -/
theorem sea_cost_amended_witness :
    seaShipping mktsAB [whMainCAN, whMainNE] cfgMR
      = Except.ok ([], specSeaCost mktsAB cfgMR.container_capacity_40 [whMainCAN, whMainNE]) :=
  (sea_cost_amended mktsAB [whMainCAN, whMainNE] cfgMR (by decide)).1 rfl

/-! ## Properties of the standard normal quantile model -/

/-- The standard Gaussian measure is invariant under negation. -/
theorem stdNormal_map_neg :
    (ProbabilityTheory.gaussianReal 0 1).map (fun x : ℝ => -1 * x)
      = ProbabilityTheory.gaussianReal 0 1 := by
  have h := ProbabilityTheory.gaussianReal_map_const_mul (μ := 0) (v := 1) (-1 : ℝ)
  have h1 : (-1 : ℝ) * 0 = 0 := by norm_num
  have h2 : (⟨(-1 : ℝ) ^ 2, sq_nonneg _⟩ : NNReal) * 1 = 1 := by
    ext
    push_cast
    norm_num
  rw [h1, h2] at h
  exact h

/-- The standard Gaussian measure has no atom at 0. -/
theorem stdNormal_singleton_zero :
    ProbabilityTheory.gaussianReal 0 1 ({0} : Set ℝ) = 0 :=
  ProbabilityTheory.gaussianReal_absolutelyContinuous 0 one_ne_zero Real.volume_singleton

/-- By symmetry, the standard Gaussian gives `Iic 0` and `Ioi 0` the same
mass. -/
theorem stdNormal_Iic_eq_Ioi :
    ProbabilityTheory.gaussianReal 0 1 (Set.Iic (0:ℝ))
      = ProbabilityTheory.gaussianReal 0 1 (Set.Ioi (0:ℝ)) := by
  have hmeas : Measurable fun x : ℝ => -1 * x := measurable_id.const_mul (-1)
  have h1 : ProbabilityTheory.gaussianReal 0 1 (Set.Iic (0:ℝ))
      = ProbabilityTheory.gaussianReal 0 1 (Set.Ici (0:ℝ)) := by
    conv_lhs => rw [← stdNormal_map_neg]
    rw [MeasureTheory.Measure.map_apply hmeas measurableSet_Iic]
    congr 1
    ext x
    simp [neg_one_mul, neg_nonpos]
  have h2 : Set.Ici (0:ℝ) = Set.Ioi 0 ∪ {0} := Set.Ioi_union_left.symm
  rw [h1, h2,
    MeasureTheory.measure_union (Set.disjoint_singleton_right.mpr (by simp))
      (measurableSet_singleton 0),
    stdNormal_singleton_zero, add_zero]

/-- The standard normal CDF takes the value one half at 0. -/
theorem stdNormalCDF_zero : stdNormalCDF 0 = 1 / 2 := by
  have hadd : ProbabilityTheory.gaussianReal 0 1 (Set.Iic (0:ℝ))
      + ProbabilityTheory.gaussianReal 0 1 (Set.Ioi (0:ℝ)) = 1 := by
    have h := MeasureTheory.measure_add_measure_compl
      (μ := ProbabilityTheory.gaussianReal 0 1)
      (measurableSet_Iic : MeasurableSet (Set.Iic (0:ℝ)))
    rwa [Set.compl_Iic, MeasureTheory.measure_univ] at h
  rw [← stdNormal_Iic_eq_Ioi] at hadd
  have hne : ProbabilityTheory.gaussianReal 0 1 (Set.Iic (0:ℝ)) ≠ ⊤ :=
    MeasureTheory.measure_ne_top _ _
  have htr : (ProbabilityTheory.gaussianReal 0 1 (Set.Iic (0:ℝ))).toReal
      + (ProbabilityTheory.gaussianReal 0 1 (Set.Iic (0:ℝ))).toReal = 1 := by
    have h := congrArg ENNReal.toReal hadd
    rwa [ENNReal.toReal_add hne hne, ENNReal.one_toReal] at h
  unfold stdNormalCDF
  rw [ProbabilityTheory.cdf_eq_toReal]
  linarith

/-- Since the standard Gaussian has no atom at 0, the CDF's left limit at 0
is also one half. -/
theorem stdNormal_leftLim_zero :
    Function.leftLim stdNormalCDF 0 = 1 / 2 := by
  have hmono : Monotone stdNormalCDF :=
    ProbabilityTheory.monotone_cdf (ProbabilityTheory.gaussianReal 0 1)
  have hle : Function.leftLim stdNormalCDF 0 ≤ stdNormalCDF 0 :=
    hmono.leftLim_le le_rfl
  have hsing := StieltjesFunction.measure_singleton
    (ProbabilityTheory.cdf (ProbabilityTheory.gaussianReal 0 1)) 0
  rw [ProbabilityTheory.measure_cdf, stdNormal_singleton_zero] at hsing
  have hF : ⇑(ProbabilityTheory.cdf (ProbabilityTheory.gaussianReal 0 1)) = stdNormalCDF := rfl
  rw [hF] at hsing
  have h0 : stdNormalCDF 0 - Function.leftLim stdNormalCDF 0 ≤ 0 := by
    have h := hsing.symm
    rwa [ENNReal.ofReal_eq_zero] at h
  have hval := stdNormalCDF_zero
  linarith

/-- There is a strictly negative point where the standard normal CDF is at
least one quarter. -/
theorem exists_neg_cdf_ge_quarter :
    ∃ x : ℝ, x < 0 ∧ 1 / 4 ≤ stdNormalCDF x := by
  have hmono : Monotone stdNormalCDF :=
    ProbabilityTheory.monotone_cdf (ProbabilityTheory.gaussianReal 0 1)
  have htend := hmono.tendsto_leftLim 0
  rw [stdNormal_leftLim_zero] at htend
  have hev : ∀ᶠ x in nhdsWithin 0 (Set.Iio (0:ℝ)), 1 / 4 < stdNormalCDF x :=
    htend.eventually_const_lt (by norm_num)
  have hmem : ∀ᶠ x in nhdsWithin 0 (Set.Iio (0:ℝ)), x ∈ Set.Iio (0:ℝ) :=
    eventually_mem_nhdsWithin
  obtain ⟨x, hx1, hx2⟩ := (hev.and hmem).exists
  exact ⟨x, hx2, hx1.le⟩

/-- For a positive level `p` the super-level set of the CDF is bounded
below (the CDF tends to 0 at `-∞`). -/
theorem bddBelow_cdf_level {p : ℝ} (hp : 0 < p) :
    BddBelow {x : ℝ | p ≤ stdNormalCDF x} := by
  have htend : Filter.Tendsto stdNormalCDF Filter.atBot (nhds 0) :=
    ProbabilityTheory.tendsto_cdf_atBot (ProbabilityTheory.gaussianReal 0 1)
  have hev : ∀ᶠ y in Filter.atBot, stdNormalCDF y < p := htend.eventually_lt_const hp
  obtain ⟨B, hB⟩ := Filter.eventually_atBot.mp hev
  refine ⟨B, fun x hx => ?_⟩
  by_contra hlt
  push_neg at hlt
  exact absurd hx (not_le.mpr (hB x hlt.le))

/-- For a level `p < 1` the super-level set of the CDF is nonempty (the CDF
tends to 1 at `+∞`). -/
theorem cdf_level_nonempty {p : ℝ} (hp : p < 1) :
    Set.Nonempty {x : ℝ | p ≤ stdNormalCDF x} := by
  have htend : Filter.Tendsto stdNormalCDF Filter.atTop (nhds 1) :=
    ProbabilityTheory.tendsto_cdf_atTop (ProbabilityTheory.gaussianReal 0 1)
  have hev : ∀ᶠ y in Filter.atTop, p < stdNormalCDF y := htend.eventually_const_lt hp
  obtain ⟨y, hy⟩ := hev.exists
  exact ⟨y, hy.le⟩

/-- The z-score of a service level strictly below one half is negative. -/
theorem normPPF_quarter_neg : normPPF (1 / 4) < 0 := by
  obtain ⟨x, hx0, hx⟩ := exists_neg_cdf_ge_quarter
  have h : normPPF (1 / 4) ≤ x := csInf_le (bddBelow_cdf_level (by norm_num)) hx
  linarith

/-- The quantile function is monotone on `(0, 1)`. -/
theorem normPPF_monotone_on {p q : ℝ} (hp : 0 < p) (hpq : p ≤ q) (hq : q < 1) :
    normPPF p ≤ normPPF q := by
  unfold normPPF
  exact csInf_le_csInf (bddBelow_cdf_level hp) (cdf_level_nonempty hq)
    fun x hx => le_trans hpq hx

/-- At service level 0 the model's quantile is the junk value 0 (the whole
real line is the super-level set). -/
theorem normPPF_zero_level : normPPF 0 = 0 := by
  unfold normPPF
  have huniv : {x : ℝ | (0:ℝ) ≤ stdNormalCDF x} = Set.univ :=
    Set.eq_univ_of_forall fun x => ProbabilityTheory.cdf_nonneg _ x
  rw [huniv]
  apply Real.sInf_of_not_bddBelow
  rintro ⟨b, hb⟩
  have h1 : b ≤ b - 1 := hb (Set.mem_univ (b - 1))
  linarith

/-- Evaluation of the safety stock of the single-market unit-variability
network under Main Regionals. -/
theorem safetyStockOf_whStd (cfg : Config)
    (hl : cfg.layout_type = Layout.MainRegionals) (lt : ℕ) :
    safetyStockOf mktsStd [whStd lt] cfg (whStd lt)
      = Real.sqrt lt * normPPF cfg.service_level := by
  have hsum : (sumServed mktsStd (whStd lt).served_markets fun ma => ma.std_daily_demand) = 1 := by
    rw [show (whStd lt).served_markets = ["CAN"] from rfl, sumServed_cons,
      show List.lookup "CAN" mktsStd = some maStd from rfl, sumServed_nil]
    norm_num [maStd]
  simp only [safetyStockOf, compute_safety_stock_main, Z_value, hl]
  rw [if_neg (by simp : ¬(Layout.MainRegionals = Layout.CentralFronts))]
  rw [hsum, show (whStd lt).lt_shipping = some lt from rfl]
  simp

/-- Counterexample to claim C5 as stated: at service level 1/4 (below one
half) the z-score is negative, so increasing the lead time from 0 to 1
strictly DECREASES the MAIN warehouse's safety stock. -/
theorem safety_stock_lead_time_counterexample :
    safetyStockOf mktsStd [whStd 1] cfgQuarter (whStd 1)
      < safetyStockOf mktsStd [whStd 0] cfgQuarter (whStd 0) := by
  rw [safetyStockOf_whStd cfgQuarter rfl 1, safetyStockOf_whStd cfgQuarter rfl 0,
    show cfgQuarter.service_level = 1 / 4 from rfl]
  norm_num [Real.sqrt_one]
  exact normPPF_quarter_neg

/-- Claim C5 (amended): for fixed demand variability, MAIN-warehouse safety
stock is non-decreasing in the lead time provided the z-score is
non-negative (it can decrease when the target service level is below one
half), and non-decreasing in the target service level for service levels
within the open interval (0, 1). -/
theorem safety_stock_monotone_amended (mkts : MarketTable) (whs : List Warehouse)
    (cfg : Config) (wh : Warehouse)
    (hstd : 0 ≤ sumServed mkts wh.served_markets fun ma => ma.std_daily_demand) :
    (∀ lt1 lt2 : ℕ, lt1 ≤ lt2 → 0 ≤ Z_value cfg →
      safetyStockOf mkts whs cfg { wh with lt_shipping := some lt1 }
        ≤ safetyStockOf mkts whs cfg { wh with lt_shipping := some lt2 })
    ∧ (∀ p q : ℝ, 0 < p → p ≤ q → q < 1 →
      safetyStockOf mkts whs { cfg with service_level := p } wh
        ≤ safetyStockOf mkts whs { cfg with service_level := q } wh) := by
  constructor
  · intro lt1 lt2 hle hz
    have hsqrt : Real.sqrt (lt1 : ℝ) ≤ Real.sqrt (lt2 : ℝ) :=
      Real.sqrt_le_sqrt (Nat.cast_le.mpr hle)
    have hcore : (sumServed mkts wh.served_markets fun ma => ma.std_daily_demand)
          * Real.sqrt (lt1 : ℝ) * Z_value cfg
        ≤ (sumServed mkts wh.served_markets fun ma => ma.std_daily_demand)
          * Real.sqrt (lt2 : ℝ) * Z_value cfg :=
      mul_le_mul_of_nonneg_right (mul_le_mul_of_nonneg_left hsqrt hstd) hz
    simp only [safetyStockOf, compute_safety_stock_main]
    by_cases hcf : cfg.layout_type = Layout.CentralFronts
    · simp only [hcf, if_pos rfl, Option.getD_some]
      exact add_le_add_right hcore _
    · rw [if_neg hcf, if_neg hcf]
      simpa using hcore
  · intro p q hp hpq hq
    have hzmono : normPPF p ≤ normPPF q := normPPF_monotone_on hp hpq hq
    have hs : 0 ≤ (sumServed mkts wh.served_markets fun ma => ma.std_daily_demand)
        * Real.sqrt ((wh.lt_shipping.getD 0 : ℕ) : ℝ) :=
      mul_nonneg hstd (Real.sqrt_nonneg _)
    have hcore : (sumServed mkts wh.served_markets fun ma => ma.std_daily_demand)
          * Real.sqrt ((wh.lt_shipping.getD 0 : ℕ) : ℝ) * normPPF p
        ≤ (sumServed mkts wh.served_markets fun ma => ma.std_daily_demand)
          * Real.sqrt ((wh.lt_shipping.getD 0 : ℕ) : ℝ) * normPPF q :=
      mul_le_mul_of_nonneg_left hzmono hs
    simp only [safetyStockOf, compute_safety_stock_main, Z_value]
    by_cases hcf : cfg.layout_type = Layout.CentralFronts
    · simp only [hcf, if_pos rfl]
      exact add_le_add_right hcore _
    · rw [if_neg hcf, if_neg hcf]
      exact hcore

/-- Witness for the amended C5 at the concrete unit-variability network:
lead times 0 ≤ 1 at service level 0 (z-score 0), and service levels
1/2 ≤ 3/4. -/
theorem safety_stock_monotone_amended_witness :
    (safetyStockOf mktsStd [whStd 0] cfgZero { whStd 0 with lt_shipping := some 0 }
      ≤ safetyStockOf mktsStd [whStd 0] cfgZero { whStd 0 with lt_shipping := some 1 })
    ∧ (safetyStockOf mktsStd [whStd 0] { cfgZero with service_level := 1/2 } (whStd 0)
      ≤ safetyStockOf mktsStd [whStd 0] { cfgZero with service_level := 3/4 } (whStd 0)) := by
  have hstd : (0:ℝ) ≤ sumServed mktsStd (whStd 0).served_markets fun ma => ma.std_daily_demand := by
    rw [show (whStd 0).served_markets = ["CAN"] from rfl, sumServed_cons,
      show List.lookup "CAN" mktsStd = some maStd from rfl, sumServed_nil]
    norm_num [maStd]
  have hz : 0 ≤ Z_value cfgZero := by
    rw [show Z_value cfgZero = normPPF 0 from rfl, normPPF_zero_level]
  exact ⟨(safety_stock_monotone_amended mktsStd [whStd 0] cfgZero (whStd 0) hstd).1
      0 1 (by norm_num) hz,
    (safety_stock_monotone_amended mktsStd [whStd 0] cfgZero (whStd 0) hstd).2
      (1/2) (3/4) (by norm_num) (by norm_num) (by norm_num)⟩

end SupplyModel
